import Mathlib

/-!
Verification of the secrets-rotation and deployment-trigger Lambda handlers
(`cicd/lambda/secrets-rotation/index.py`, `cicd/lambda/octopus-deploy/index.py`).

The Python code is shallowly embedded:

* Timestamps (`datetime.utcnow()`, `LastChangedDate`) are integers counting
  seconds; `timedelta(days=90)` is `90 * 86400` seconds.
* A secret value (`json.loads` of the stored string) is a partial map
  `String → Option String`; `d.copy()` followed by `d[k] = v` is `dictSet`.
* The global random number generator is modelled nondeterministically: each
  `random.choice` sequence feeding one generated string is a draw function
  `Nat → Char`, and the single-character patch draws of
  `generate_secure_password` are explicit characters.  Theorems that need the
  draws to come from the right pool state that as a hypothesis.
* AWS calls are oracles: `get_secret_value` is `String → Except String SecretValue`
  (an `Except.error` is a raised botocore exception), `update_secret` is
  `String → SecretValue → Except String Unit`.  The KMS key id only travels
  through `update_secret`, so the oracle absorbs it.
* The `list_secrets` paginator is flattened to one `List SecretMeta`.
-/

/-- A secret value: partial map from field name to string, as in the JSON object. -/
abbrev SecretValue := String → Option String

/-- Python's `d.copy()` then `d[k] = v` on a Python dict. -/
def dictSet (d : SecretValue) (k v : String) : SecretValue :=
  fun k2 => if k2 = k then some v else d k2

/-- Substring test: Python's `needle in haystack` for strings. -/
def strContains (needle hay : String) : Bool :=
  hay.data.tails.any (fun t => needle.data.isPrefixOf t)

/-- One entry of the `list_secrets` response: name and optional `LastChangedDate`. -/
structure SecretMeta where
  name : String
  lastChangedDate : Option Int
deriving DecidableEq, Repr

/-- Namespace string filtering batch rotation: `ecs-modernization/`. -/
def namespaceStr : String := "ecs-modernization/"

/-- Python's `secret_name.startswith('ecs-modernization/')`. -/
def inNamespace (name : String) : Bool :=
  namespaceStr.data.isPrefixOf name.data

/-- Function `should_rotate_secret`: rotate when `LastChangedDate` is absent, or when it
is strictly below `utcnow() - timedelta(days=90)`. -/
def should_rotate_secret (now : Int) (secret : SecretMeta) : Bool :=
  match secret.lastChangedDate with
  | none => true
  | some lastChanged => decide (lastChanged < now - 90 * 86400)

/-- The four dispatch outcomes of `rotate_secret_by_type`. -/
inductive SecretCategory where
  | database
  | apiSecrets
  | token
  | generic
deriving DecidableEq, Repr

/-- The `if/elif` dispatch of `rotate_secret_by_type` on the secret name. -/
def classify_secret (name : String) : SecretCategory :=
  if strContains "database" name then .database
  else if strContains "api-secrets" name then .apiSecrets
  else if strContains "jwt" name || strContains "api" name then .token
  else .generic

/-- Python's `string.ascii_lowercase`. -/
def lowercaseChars : List Char := "abcdefghijklmnopqrstuvwxyz".data

/-- Python's `string.ascii_uppercase`. -/
def uppercaseChars : List Char := "ABCDEFGHIJKLMNOPQRSTUVWXYZ".data

/-- Python's `string.digits`. -/
def digitChars : List Char := "0123456789".data

/-- The fixed symbol set `"!@#$%^&*"`. -/
def symbolChars : List Char := "!@#$%^&*".data

/-- Python's `string.ascii_letters + string.digits + "!@#$%^&*"`. -/
def passwordCharacters : List Char :=
  lowercaseChars ++ uppercaseChars ++ digitChars ++ symbolChars

/-- Python's `string.ascii_letters + string.digits` (the token alphabet). -/
def tokenCharacters : List Char :=
  lowercaseChars ++ uppercaseChars ++ digitChars

/-- Python's `c.islower()` on the ASCII alphabets in play. -/
def isLowerCh (c : Char) : Bool := 'a' ≤ c && c ≤ 'z'

/-- Python's `c.isupper()` on the ASCII alphabets in play. -/
def isUpperCh (c : Char) : Bool := 'A' ≤ c && c ≤ 'Z'

/-- Python's `c.isdigit()` on the ASCII alphabets in play. -/
def isDigitCh (c : Char) : Bool := '0' ≤ c && c ≤ '9'

/-- Python's `c in "!@#$%^&*"`. -/
def isSymbolCh (c : Char) : Bool := symbolChars.contains c

/-- Alphanumeric ASCII character (member of the token alphabet). -/
def isAlnumCh (c : Char) : Bool := isLowerCh c || isUpperCh c || isDigitCh c

/-- One post-hoc patch of `generate_secure_password`:
`password[:-1] + random.choice(pool)` when no character satisfies `has`. -/
def patchClass (p : List Char) (has : Char → Bool) (c : Char) : List Char :=
  if p.any has then p else p.dropLast ++ [c]

/-- Function `generate_secure_password`: `length` draws from `passwordCharacters`
(`draw 0, draw 1, …`), then four sequential patches, each overwriting the last
character when a class is missing.  `pl`, `pu`, `pd`, `ps` are the characters
the four `random.choice` patch calls would return. -/
def generate_secure_password (length : Nat) (draw : Nat → Char)
    (pl pu pd ps : Char) : String :=
  let p0 := (List.range length).map draw
  let p1 := patchClass p0 isLowerCh pl
  let p2 := patchClass p1 isUpperCh pu
  let p3 := patchClass p2 isDigitCh pd
  let p4 := patchClass p3 isSymbolCh ps
  ⟨p4⟩

/-- Function `generate_secure_token`: `length` draws from `tokenCharacters`. -/
def generate_secure_token (length : Nat) (draw : Nat → Char) : String :=
  ⟨(List.range length).map draw⟩

/-- Function `generate_api_key`: `"ecs_mod" + "_" + generate_secure_token(32)`. -/
def generate_api_key (draw : Nat → Char) : String :=
  "ecs_mod" ++ "_" ++ generate_secure_token 32 draw

/-- The random draws one `rotate_secret_by_type` call may consume, one draw
function per generated string (see the module docstring). -/
structure RotateEnv where
  pwDraw : Nat → Char
  pl : Char
  pu : Char
  pd : Char
  ps : Char
  jwtDraw : Nat → Char
  apiDraw : Nat → Char
  encDraw : Nat → Char
  whDraw : Nat → Char
  tokDraw : Nat → Char

/-- The updated value `rotate_database_secret` writes back: copy of the current
value with `password` set to the freshly generated password. -/
def rotate_database_secret_value (current : SecretValue) (newPassword : String) :
    SecretValue :=
  dictSet current "password" newPassword

/-- Python's `if key in new_secret: new_secret[key] = v` on the evolving dict. -/
def condSet (d : SecretValue) (k v : String) : SecretValue :=
  if (d k).isSome then dictSet d k v else d

/-- The updated value `rotate_api_secret` writes back: each of the four keys is
regenerated when (and only when) it is present, in the source's order. -/
def rotate_api_secret_value (current : SecretValue) (env : RotateEnv) :
    SecretValue :=
  let s1 := condSet current "jwt_secret" (generate_secure_token 64 env.jwtDraw)
  let s2 := condSet s1 "api_key" (generate_api_key env.apiDraw)
  let s3 := condSet s2 "encrypt_key" (generate_secure_token 32 env.encDraw)
  condSet s3 "webhook_secret" (generate_secure_token 32 env.whDraw)

/-- The updated value `rotate_token_secret` writes back. -/
def rotate_token_secret_value (current : SecretValue) (env : RotateEnv) :
    SecretValue :=
  condSet current "token" (generate_secure_token 64 env.tokDraw)

/-- The result dict returned per secret (`type`, `action`, `timestamp`). -/
structure RotationResult where
  rtype : String
  action : String
  timestamp : Int
deriving DecidableEq, Repr

/-- Function `rotate_secret_by_type`: read the current value, dispatch on the name, write
the regenerated value back (except for generic secrets, which are only
reviewed), and return the result dict.  A `.error` is a raised exception (from
the store read or the store update); it propagates to the caller. -/
def rotate_secret_by_type (now : Int) (env : RotateEnv)
    (get : String → Except String SecretValue)
    (upd : String → SecretValue → Except String Unit)
    (name : String) : Except String RotationResult := do
  let current ← get name
  match classify_secret name with
  | .database =>
    let newPassword := generate_secure_password 32 env.pwDraw env.pl env.pu env.pd env.ps
    let _ ← upd name (rotate_database_secret_value current newPassword)
    pure ⟨"database", "password_rotated", now⟩
  | .apiSecrets =>
    let _ ← upd name (rotate_api_secret_value current env)
    pure ⟨"api_secret", "keys_rotated", now⟩
  | .token =>
    let _ ← upd name (rotate_token_secret_value current env)
    pure ⟨"token", "token_rotated", now⟩
  | .generic =>
    pure ⟨"generic", "reviewed_only", now⟩

/-- The batch report: the `results` dict of `rotate_scheduled_secrets`.
`rotated_secrets` holds `{'name': …, 'result': …}` entries, `failed_secrets`
holds `{'name': …, 'error': …}` entries, `skipped_secrets` holds names. -/
structure BatchResults where
  rotated_secrets : List (String × RotationResult)
  skipped_secrets : List String
  failed_secrets : List (String × String)
deriving DecidableEq, Repr

/-- The body of the `for secret in page['SecretList']` loop of
`rotate_scheduled_secrets`, for one secret: skip names outside the namespace,
skip secrets not due, and otherwise attempt rotation, catching any exception
into `failed_secrets`. -/
def processSecret (now : Int) (rotate : String → Except String RotationResult)
    (results : BatchResults) (secret : SecretMeta) : BatchResults :=
  if inNamespace secret.name = false then results
  else if should_rotate_secret now secret then
    match rotate secret.name with
    | .ok r =>
      { results with rotated_secrets := results.rotated_secrets ++ [(secret.name, r)] }
    | .error e =>
      { results with failed_secrets := results.failed_secrets ++ [(secret.name, e)] }
  else
    { results with skipped_secrets := results.skipped_secrets ++ [secret.name] }

/-- Function `rotate_scheduled_secrets`: fold the per-secret loop body over the
(flattened) `list_secrets` enumeration, starting from the empty report. -/
def rotate_scheduled_secrets (now : Int) (env : RotateEnv)
    (get : String → Except String SecretValue)
    (upd : String → SecretValue → Except String Unit)
    (secrets : List SecretMeta) : BatchResults :=
  secrets.foldl (processSecret now (rotate_secret_by_type now env get upd)) ⟨[], [], []⟩

/-- Function `rotate_all_secrets` just delegates to `rotate_scheduled_secrets`. -/
def rotate_all_secrets (now : Int) (env : RotateEnv)
    (get : String → Except String SecretValue)
    (upd : String → SecretValue → Except String Unit)
    (secrets : List SecretMeta) : BatchResults :=
  rotate_scheduled_secrets now env get upd secrets

/-- The dict `rotate_specific_secret` returns: on success
`{'secret_id', 'result', 'status': 'success'}`, on a caught exception
`{'secret_id', 'error', 'status': 'failed'}`. -/
structure SpecificResult where
  secret_id : String
  result : Option RotationResult
  error : Option String
  status : String
deriving DecidableEq, Repr

/-- Function `rotate_specific_secret`: rotate one secret by id, catching any exception
into a `'failed'` result.  No namespace check appears on this path. -/
def rotate_specific_secret (now : Int) (env : RotateEnv)
    (get : String → Except String SecretValue)
    (upd : String → SecretValue → Except String Unit)
    (secretId : String) : SpecificResult :=
  match rotate_secret_by_type now env get upd secretId with
  | .ok r => ⟨secretId, some r, none, "success"⟩
  | .error e => ⟨secretId, none, some e, "failed"⟩

/-- The three event shapes the rotation handler branches on:
`event['source'] == 'aws.events'`, `'SecretId' in event`, anything else. -/
inductive LambdaEvent where
  | scheduled
  | secretId (id : String)
  | other
deriving DecidableEq, Repr

/-- The handler's HTTP-style response: status code plus whichever body the
taken branch produced (batch report, single-secret result, or error string). -/
structure HandlerResponse where
  statusCode : Nat
  batchBody : Option BatchResults
  specificBody : Option SpecificResult
  errorBody : Option String
deriving DecidableEq, Repr

/-- The rotation `handler`: a missing `KMS_KEY_ID` raises a `ValueError` that
the top-level `except` converts to a 500 response; otherwise the event is
dispatched and the branch result is wrapped in a 200 response. -/
def handler (now : Int) (kmsKeyId : Option String) (env : RotateEnv)
    (get : String → Except String SecretValue)
    (upd : String → SecretValue → Except String Unit)
    (secrets : List SecretMeta) (event : LambdaEvent) : HandlerResponse :=
  match kmsKeyId with
  | none => ⟨500, none, none, some "KMS_KEY_ID environment variable not set"⟩
  | some _ =>
    match event with
    | .scheduled =>
      ⟨200, some (rotate_scheduled_secrets now env get upd secrets), none, none⟩
    | .secretId id =>
      ⟨200, none, some (rotate_specific_secret now env get upd id), none⟩
    | .other =>
      ⟨200, some (rotate_all_secrets now env get upd secrets), none, none⟩

/-- The terminal deployment states of `wait_for_deployment`. -/
def terminalStates : List String := ["Success", "Failed", "Canceled", "TimedOut"]

/-- Python's `state in ['Success', 'Failed', 'Canceled', 'TimedOut']`. -/
def isTerminalState (s : String) : Bool := terminalStates.contains s

/-- The `while time.time() - start_time < timeout_seconds` loop of
`wait_for_deployment`.  `poll i` is the `State` the i-th status query returns;
iteration `i` runs at elapsed time `30 * i` seconds (each pass ends in
`time.sleep(30)`).  `fuel` only forces termination: it is dimensioned so that
it never runs out before the time check fails. -/
def waitLoop (poll : Nat → String) (timeoutSeconds : Nat) :
    Nat → Nat → Bool
  | 0, _ => false
  | fuel + 1, i =>
    if 30 * i < timeoutSeconds then
      let state := poll i
      if isTerminalState state then state == "Success"
      else waitLoop poll timeoutSeconds fuel (i + 1)
    else false

/-- Function `wait_for_deployment` with its default 15-minute timeout and 30-second
polling interval. -/
def wait_for_deployment (poll : Nat → String) (timeoutMinutes : Nat) : Bool :=
  waitLoop poll (timeoutMinutes * 60) (timeoutMinutes * 60) 0

/-- All secret names mentioned anywhere in a batch report. -/
def reportNames (r : BatchResults) : List String :=
  r.rotated_secrets.map Prod.fst ++ r.skipped_secrets ++ r.failed_secrets.map Prod.fst

/-- Total number of entries of a batch report. -/
def reportSize (r : BatchResults) : Nat :=
  r.rotated_secrets.length + r.skipped_secrets.length + r.failed_secrets.length

/-- A sample api-secrets value holding only `jwt_secret` (for concrete runs). -/
def sampleApiValue : SecretValue :=
  fun k => if k = "jwt_secret" then some "oldjwt" else none

/-- A sample database value (for concrete runs). -/
def sampleDbValue : SecretValue :=
  fun k => if k = "username" then some "admin"
    else if k = "password" then some "old" else none

/-- A fixed draw environment (for concrete runs): every `random.choice` call
returns a legal member of its pool. -/
def sampleEnv : RotateEnv :=
  ⟨fun _ => 'b', 'z', 'A', '0', '!',
    fun _ => 'c', fun _ => 'd', fun _ => 'e', fun _ => 'f', fun _ => 'g'⟩

/-- A sample store read oracle (for concrete runs): every read succeeds and
returns the sample database value. -/
def sampleGet : String → Except String SecretValue :=
  fun _ => .ok sampleDbValue

/-- A sample store update oracle (for concrete runs): updating
`ecs-modernization/database-a` raises, every other update succeeds. -/
def sampleUpd : String → SecretValue → Except String Unit :=
  fun name _ =>
    if name = "ecs-modernization/database-a" then .error "update failed"
    else .ok ()

/-- C1, counterexample: a secret last modified exactly 90 days (7776000
seconds) before `now` is NOT due for rotation — `should_rotate_secret`
compares with strict `<`, so the claimed boundary case "exactly 90 days →
true" fails. -/
theorem should_rotate_secret_boundary_cex :
    (7776000 : Int) - 0 = 90 * 86400 ∧
    should_rotate_secret 7776000 ⟨"ecs-modernization/database-prod", some 0⟩ = false := by
  decide

/-- C1, amended: `should_rotate_secret` is a pure predicate of
`(now, lastChangedDate)`; it returns true when the last-modified timestamp is
absent, true when the secret is STRICTLY more than 90 days old, and false when
it is at most 90 days old (boundary: exactly 90 days → false). -/
theorem should_rotate_secret_spec (now lastChanged : Int) (n m : String) :
    should_rotate_secret now ⟨n, none⟩ = true ∧
    (should_rotate_secret now ⟨m, some lastChanged⟩ = true ↔
      now - lastChanged > 90 * 86400) := by
  refine ⟨rfl, ?_⟩
  simp only [should_rotate_secret, decide_eq_true_eq]
  omega

/-- C2: the password patches of `generate_secure_password` can clobber each
other.  With all 32 draws equal to `'a'` (a legal draw from the password
alphabet) and patch draws `'A'`, `'0'`, `'!'`, the digit patch overwrites the
uppercase patch and the symbol patch overwrites the digit patch: the returned
32-character password contains no uppercase letter and no digit, contradicting
the guarantee stated in the code's own comment ("Ensure password contains at
least one of each character type"). -/
theorem generate_secure_password_class_bug :
    ('a' ∈ passwordCharacters ∧ 'z' ∈ lowercaseChars ∧ 'A' ∈ uppercaseChars ∧
      '0' ∈ digitChars ∧ '!' ∈ symbolChars) ∧
    (generate_secure_password 32 (fun _ => 'a') 'z' 'A' '0' '!').length = 32 ∧
    (generate_secure_password 32 (fun _ => 'a') 'z' 'A' '0' '!').data.any isUpperCh
      = false ∧
    (generate_secure_password 32 (fun _ => 'a') 'z' 'A' '0' '!').data.any isDigitCh
      = false := by
  decide

/-- C3: `rotate_secret_by_type`'s classification is a first-match dispatch on
substrings of the secret name, in priority order `database` >
`api-secrets` > `jwt`/`api` (token) > generic; a name containing both
`api-secrets` and `jwt` resolves to api-secrets, and the four test vectors
hold. -/
theorem classification_priority :
    (∀ name, strContains "database" name = true →
      classify_secret name = .database) ∧
    (∀ name, strContains "database" name = false →
      strContains "api-secrets" name = true →
      classify_secret name = .apiSecrets) ∧
    (∀ name, strContains "database" name = false →
      strContains "api-secrets" name = false →
      (strContains "jwt" name = true ∨ strContains "api" name = true) →
      classify_secret name = .token) ∧
    (∀ name, strContains "database" name = false →
      strContains "api-secrets" name = false →
      strContains "jwt" name = false → strContains "api" name = false →
      classify_secret name = .generic) ∧
    (∀ name, strContains "database" name = false →
      strContains "api-secrets" name = true → strContains "jwt" name = true →
      classify_secret name = .apiSecrets) ∧
    classify_secret "foo-database-bar" = .database ∧
    classify_secret "foo-api-secrets" = .apiSecrets ∧
    classify_secret "foo-jwt-token" = .token ∧
    classify_secret "foo-other" = .generic := by
  refine ⟨?_, ?_, ?_, ?_, ?_, by decide, by decide, by decide, by decide⟩
  · intro name h
    simp [classify_secret, h]
  · intro name h1 h2
    simp [classify_secret, h1, h2]
  · intro name h1 h2 h3
    rcases h3 with h3 | h3 <;> simp [classify_secret, h1, h2, h3]
  · intro name h1 h2 h3 h4
    simp [classify_secret, h1, h2, h3, h4]
  · intro name h1 h2 _
    simp [classify_secret, h1, h2]

/-- C3 witness: the priority theorem applied at a name containing both
`api-secrets` and `jwt`. -/
theorem classification_priority_witness :
    classify_secret "ecs-modernization/api-secrets-jwt" = .apiSecrets :=
  classification_priority.2.2.2.2.1 "ecs-modernization/api-secrets-jwt"
    (by decide) (by decide) (by decide)

/-- Reading back the key just written by `dictSet`. -/
theorem dictSet_lookup_same (d : SecretValue) (k v : String) :
    dictSet d k v k = some v := by
  simp [dictSet]

/-- Writing through `dictSet` leaves every other key unchanged. -/
theorem dictSet_lookup_other (d : SecretValue) (k v k2 : String) (h : k2 ≠ k) :
    dictSet d k v k2 = d k2 := by
  simp [dictSet, h]

/-- Writing through `condSet` leaves every other key unchanged. -/
theorem condSet_lookup_other (d : SecretValue) (k v k2 : String) (h : k2 ≠ k) :
    condSet d k v k2 = d k2 := by
  unfold condSet
  split
  · exact dictSet_lookup_other d k v k2 h
  · rfl

/-- Writing through `condSet` overwrites a present key. -/
theorem condSet_lookup_some (d : SecretValue) (k v x : String) (h : d k = some x) :
    condSet d k v k = some v := by
  simp [condSet, h, dictSet]

/-- Writing through `condSet` leaves an absent key absent. -/
theorem condSet_lookup_none (d : SecretValue) (k v : String) (h : d k = none) :
    condSet d k v k = none := by
  simp [condSet, h]

/-- A password patch preserves the length of a nonempty password. -/
theorem patchClass_length (p : List Char) (has : Char → Bool) (c : Char)
    (h : 0 < p.length) : (patchClass p has c).length = p.length := by
  unfold patchClass
  split
  · rfl
  · simp only [List.length_append, List.length_dropLast, List.length_cons,
      List.length_nil]
    omega

/-- A generated password keeps the requested (positive) length through all
four patches. -/
theorem generate_secure_password_length (n : Nat) (draw : Nat → Char)
    (pl pu pd ps : Char) (h : 0 < n) :
    (generate_secure_password n draw pl pu pd ps).length = n := by
  have l0 : ((List.range n).map draw).length = n := by simp
  have l1 : (patchClass ((List.range n).map draw) isLowerCh pl).length = n := by
    rw [patchClass_length]
    · exact l0
    · rw [l0]; exact h
  have l2 : (patchClass (patchClass ((List.range n).map draw) isLowerCh pl)
      isUpperCh pu).length = n := by
    rw [patchClass_length]
    · exact l1
    · rw [l1]; exact h
  have l3 : (patchClass (patchClass (patchClass ((List.range n).map draw)
      isLowerCh pl) isUpperCh pu) isDigitCh pd).length = n := by
    rw [patchClass_length]
    · exact l2
    · rw [l2]; exact h
  have l4 : (patchClass (patchClass (patchClass (patchClass
      ((List.range n).map draw) isLowerCh pl) isUpperCh pu) isDigitCh pd)
      isSymbolCh ps).length = n := by
    rw [patchClass_length]
    · exact l3
    · rw [l3]; exact h
  exact l4

/-- A generated token has the requested length. -/
theorem generate_secure_token_length (n : Nat) (d : Nat → Char) :
    (generate_secure_token n d).length = n := by
  show ((List.range n).map d).length = n
  simp

/-- When every draw comes from the token alphabet, every character of the
generated token is alphanumeric. -/
theorem generate_secure_token_alnum (n : Nat) (d : Nat → Char)
    (hd : ∀ i, d i ∈ tokenCharacters) :
    (generate_secure_token n d).data.all isAlnumCh = true := by
  have hall : tokenCharacters.all isAlnumCh = true := by decide
  show ((List.range n).map d).all isAlnumCh = true
  rw [List.all_eq_true]
  intro c hc
  obtain ⟨i, _, rfl⟩ := List.mem_map.mp hc
  exact List.all_eq_true.mp hall _ (hd i)

/-- C5: the value `rotate_database_secret` writes back differs from its input
only at `password`, which holds the freshly generated 32-character password;
every other field is returned unchanged. -/
theorem rotate_database_secret_frame (current : SecretValue) (draw : Nat → Char)
    (pl pu pd ps : Char) (k : String) (hk : k ≠ "password") :
    rotate_database_secret_value current
        (generate_secure_password 32 draw pl pu pd ps) "password"
      = some (generate_secure_password 32 draw pl pu pd ps) ∧
    (generate_secure_password 32 draw pl pu pd ps).length = 32 ∧
    rotate_database_secret_value current
        (generate_secure_password 32 draw pl pu pd ps) k = current k :=
  ⟨dictSet_lookup_same current _ _,
    generate_secure_password_length 32 draw pl pu pd ps (by omega),
    dictSet_lookup_other current _ _ k hk⟩

/-- C5 witness: the frame theorem run on the sample database value. -/
theorem rotate_database_secret_frame_witness :
    rotate_database_secret_value sampleDbValue
        (generate_secure_password 32 sampleEnv.pwDraw sampleEnv.pl sampleEnv.pu
          sampleEnv.pd sampleEnv.ps) "password"
      = some (generate_secure_password 32 sampleEnv.pwDraw sampleEnv.pl
          sampleEnv.pu sampleEnv.pd sampleEnv.ps) ∧
    (generate_secure_password 32 sampleEnv.pwDraw sampleEnv.pl sampleEnv.pu
        sampleEnv.pd sampleEnv.ps).length = 32 ∧
    rotate_database_secret_value sampleDbValue
        (generate_secure_password 32 sampleEnv.pwDraw sampleEnv.pl sampleEnv.pu
          sampleEnv.pd sampleEnv.ps) "username" = some "admin" := by
  simpa [sampleDbValue] using
    rotate_database_secret_frame sampleDbValue sampleEnv.pwDraw sampleEnv.pl
      sampleEnv.pu sampleEnv.pd sampleEnv.ps "username" (by decide)

/-- C6: `rotate_api_secret` regenerates each of `jwt_secret` (64-character
alphanumeric token), `api_key` (`ecs_mod_` + 32-character alphanumeric token),
`encrypt_key` (32-character alphanumeric) and `webhook_secret` (32-character
alphanumeric) exactly when the field is present in the input value; absent
fields stay absent and every other field is unchanged. -/
theorem rotate_api_secret_frame (current : SecretValue) (env : RotateEnv)
    (hj : ∀ i, env.jwtDraw i ∈ tokenCharacters)
    (ha : ∀ i, env.apiDraw i ∈ tokenCharacters)
    (he : ∀ i, env.encDraw i ∈ tokenCharacters)
    (hw : ∀ i, env.whDraw i ∈ tokenCharacters) :
    ((current "jwt_secret").isSome = true →
      rotate_api_secret_value current env "jwt_secret"
        = some (generate_secure_token 64 env.jwtDraw)) ∧
    (current "jwt_secret" = none →
      rotate_api_secret_value current env "jwt_secret" = none) ∧
    ((current "api_key").isSome = true →
      rotate_api_secret_value current env "api_key"
        = some (generate_api_key env.apiDraw)) ∧
    (current "api_key" = none →
      rotate_api_secret_value current env "api_key" = none) ∧
    ((current "encrypt_key").isSome = true →
      rotate_api_secret_value current env "encrypt_key"
        = some (generate_secure_token 32 env.encDraw)) ∧
    (current "encrypt_key" = none →
      rotate_api_secret_value current env "encrypt_key" = none) ∧
    ((current "webhook_secret").isSome = true →
      rotate_api_secret_value current env "webhook_secret"
        = some (generate_secure_token 32 env.whDraw)) ∧
    (current "webhook_secret" = none →
      rotate_api_secret_value current env "webhook_secret" = none) ∧
    (∀ k, k ≠ "jwt_secret" → k ≠ "api_key" → k ≠ "encrypt_key" →
      k ≠ "webhook_secret" →
      rotate_api_secret_value current env k = current k) ∧
    (generate_secure_token 64 env.jwtDraw).length = 64 ∧
    generate_api_key env.apiDraw
      = "ecs_mod_" ++ generate_secure_token 32 env.apiDraw ∧
    (generate_secure_token 32 env.apiDraw).length = 32 ∧
    (generate_secure_token 32 env.encDraw).length = 32 ∧
    (generate_secure_token 32 env.whDraw).length = 32 ∧
    (generate_secure_token 64 env.jwtDraw).data.all isAlnumCh = true ∧
    (generate_secure_token 32 env.apiDraw).data.all isAlnumCh = true ∧
    (generate_secure_token 32 env.encDraw).data.all isAlnumCh = true ∧
    (generate_secure_token 32 env.whDraw).data.all isAlnumCh = true := by
  have hv : rotate_api_secret_value current env =
      condSet (condSet (condSet
        (condSet current "jwt_secret" (generate_secure_token 64 env.jwtDraw))
        "api_key" (generate_api_key env.apiDraw))
        "encrypt_key" (generate_secure_token 32 env.encDraw))
        "webhook_secret" (generate_secure_token 32 env.whDraw) := rfl
  refine ⟨?_, ?_, ?_, ?_, ?_, ?_, ?_, ?_, ?_,
    generate_secure_token_length 64 env.jwtDraw, by rfl,
    generate_secure_token_length 32 env.apiDraw,
    generate_secure_token_length 32 env.encDraw,
    generate_secure_token_length 32 env.whDraw,
    generate_secure_token_alnum 64 env.jwtDraw hj,
    generate_secure_token_alnum 32 env.apiDraw ha,
    generate_secure_token_alnum 32 env.encDraw he,
    generate_secure_token_alnum 32 env.whDraw hw⟩
  · intro h
    obtain ⟨x, hx⟩ := Option.isSome_iff_exists.mp h
    rw [hv, condSet_lookup_other _ _ _ _ (by decide),
      condSet_lookup_other _ _ _ _ (by decide),
      condSet_lookup_other _ _ _ _ (by decide)]
    exact condSet_lookup_some current _ _ x hx
  · intro h
    rw [hv, condSet_lookup_other _ _ _ _ (by decide),
      condSet_lookup_other _ _ _ _ (by decide),
      condSet_lookup_other _ _ _ _ (by decide)]
    exact condSet_lookup_none current _ _ h
  · intro h
    have h1 : (condSet current "jwt_secret"
        (generate_secure_token 64 env.jwtDraw)) "api_key" = current "api_key" :=
      condSet_lookup_other _ _ _ _ (by decide)
    obtain ⟨x, hx⟩ := Option.isSome_iff_exists.mp h
    rw [hv, condSet_lookup_other _ _ _ _ (by decide),
      condSet_lookup_other _ _ _ _ (by decide)]
    exact condSet_lookup_some _ _ _ x (h1.trans hx)
  · intro h
    have h1 : (condSet current "jwt_secret"
        (generate_secure_token 64 env.jwtDraw)) "api_key" = current "api_key" :=
      condSet_lookup_other _ _ _ _ (by decide)
    rw [hv, condSet_lookup_other _ _ _ _ (by decide),
      condSet_lookup_other _ _ _ _ (by decide)]
    exact condSet_lookup_none _ _ _ (h1.trans h)
  · intro h
    have h1 : (condSet (condSet current "jwt_secret"
        (generate_secure_token 64 env.jwtDraw)) "api_key"
        (generate_api_key env.apiDraw)) "encrypt_key" = current "encrypt_key" := by
      rw [condSet_lookup_other _ _ _ _ (by decide),
        condSet_lookup_other _ _ _ _ (by decide)]
    obtain ⟨x, hx⟩ := Option.isSome_iff_exists.mp h
    rw [hv, condSet_lookup_other _ _ _ _ (by decide)]
    exact condSet_lookup_some _ _ _ x (h1.trans hx)
  · intro h
    have h1 : (condSet (condSet current "jwt_secret"
        (generate_secure_token 64 env.jwtDraw)) "api_key"
        (generate_api_key env.apiDraw)) "encrypt_key" = current "encrypt_key" := by
      rw [condSet_lookup_other _ _ _ _ (by decide),
        condSet_lookup_other _ _ _ _ (by decide)]
    rw [hv, condSet_lookup_other _ _ _ _ (by decide)]
    exact condSet_lookup_none _ _ _ (h1.trans h)
  · intro h
    have h1 : (condSet (condSet (condSet current "jwt_secret"
        (generate_secure_token 64 env.jwtDraw)) "api_key"
        (generate_api_key env.apiDraw)) "encrypt_key"
        (generate_secure_token 32 env.encDraw)) "webhook_secret"
        = current "webhook_secret" := by
      rw [condSet_lookup_other _ _ _ _ (by decide),
        condSet_lookup_other _ _ _ _ (by decide),
        condSet_lookup_other _ _ _ _ (by decide)]
    obtain ⟨x, hx⟩ := Option.isSome_iff_exists.mp h
    rw [hv]
    exact condSet_lookup_some _ _ _ x (h1.trans hx)
  · intro h
    have h1 : (condSet (condSet (condSet current "jwt_secret"
        (generate_secure_token 64 env.jwtDraw)) "api_key"
        (generate_api_key env.apiDraw)) "encrypt_key"
        (generate_secure_token 32 env.encDraw)) "webhook_secret"
        = current "webhook_secret" := by
      rw [condSet_lookup_other _ _ _ _ (by decide),
        condSet_lookup_other _ _ _ _ (by decide),
        condSet_lookup_other _ _ _ _ (by decide)]
    rw [hv]
    exact condSet_lookup_none _ _ _ (h1.trans h)
  · intro k hk1 hk2 hk3 hk4
    rw [hv, condSet_lookup_other _ _ _ _ hk4, condSet_lookup_other _ _ _ _ hk3,
      condSet_lookup_other _ _ _ _ hk2, condSet_lookup_other _ _ _ _ hk1]

/-- C6 witness: rotating the sample value holding only `jwt_secret` updates
`jwt_secret` and leaves the other three keys absent. -/
theorem rotate_api_secret_frame_witness :
    rotate_api_secret_value sampleApiValue sampleEnv "jwt_secret"
      = some (generate_secure_token 64 sampleEnv.jwtDraw) ∧
    rotate_api_secret_value sampleApiValue sampleEnv "api_key" = none ∧
    rotate_api_secret_value sampleApiValue sampleEnv "encrypt_key" = none ∧
    rotate_api_secret_value sampleApiValue sampleEnv "webhook_secret" = none := by
  have h := rotate_api_secret_frame sampleApiValue sampleEnv
    (fun i => show ('c' : Char) ∈ tokenCharacters by decide)
    (fun i => show ('d' : Char) ∈ tokenCharacters by decide)
    (fun i => show ('e' : Char) ∈ tokenCharacters by decide)
    (fun i => show ('f' : Char) ∈ tokenCharacters by decide)
  exact ⟨h.1 (by decide), h.2.2.2.1 (by decide), h.2.2.2.2.2.1 (by decide),
    h.2.2.2.2.2.2.2.1 (by decide)⟩

/-- The state `"Success"` is a terminal state. -/
theorem isTerminalState_success : isTerminalState "Success" = true := by decide

/-- Characterization of the polling loop at the 15-minute timeout: starting at
query index `i` with enough fuel, it returns true exactly when some query at
an index below 30 observes `"Success"` and no earlier query (from `i` on)
observed a terminal state. -/
theorem waitLoop_true_iff (poll : Nat → String) :
    ∀ fuel i : Nat, 30 ≤ fuel + i →
      (waitLoop poll 900 fuel i = true ↔
        ∃ m, i ≤ m ∧ m < 30 ∧ poll m = "Success" ∧
          ∀ j, i ≤ j → j < m → isTerminalState (poll j) = false) := by
  intro fuel
  induction fuel with
  | zero =>
    intro i hi
    rw [show waitLoop poll 900 0 i = false from rfl]
    refine iff_of_false (by simp) ?_
    rintro ⟨m, him, hm30, -, -⟩
    omega
  | succ fuel ih =>
    intro i hi
    by_cases hcl : 30 * i < 900
    · cases ht : isTerminalState (poll i) with
      | true =>
        by_cases hs : poll i = "Success"
        · have hL : waitLoop poll 900 (fuel + 1) i = true := by
            simp [waitLoop, hcl, ht, hs]
            exact Or.inl isTerminalState_success
          rw [hL]
          refine iff_of_true rfl ?_
          exact ⟨i, Nat.le_refl i, by omega, hs, fun j h1 h2 => by omega⟩
        · have hL : waitLoop poll 900 (fuel + 1) i = false := by
            simp [waitLoop, hcl, ht, beq_eq_false_iff_ne, hs]
          refine iff_of_false (by simp [hL]) ?_
          rintro ⟨m, him, hm30, hmS, hall⟩
          rcases Nat.eq_or_lt_of_le him with rfl | hlt
          · exact hs hmS
          · have hfi := hall i (Nat.le_refl i) hlt
            rw [ht] at hfi
            exact Bool.noConfusion hfi
      | false =>
        have hstep : waitLoop poll 900 (fuel + 1) i = waitLoop poll 900 fuel (i + 1) := by
          simp [waitLoop, hcl, ht]
        have hsne : poll i ≠ "Success" := by
          intro hs
          rw [hs, isTerminalState_success] at ht
          exact Bool.noConfusion ht
        rw [hstep, ih (i + 1) (by omega)]
        constructor
        · rintro ⟨m, him, hm30, hmS, hall⟩
          refine ⟨m, by omega, hm30, hmS, ?_⟩
          intro j hj1 hj2
          rcases Nat.eq_or_lt_of_le hj1 with rfl | hlt
          · exact ht
          · exact hall j (by omega) hj2
        · rintro ⟨m, him, hm30, hmS, hall⟩
          have hmne : m ≠ i := by
            rintro rfl
            exact hsne hmS
          refine ⟨m, by omega, hm30, hmS, ?_⟩
          intro j hj1 hj2
          exact hall j (by omega) hj2
    · have hL : waitLoop poll 900 (fuel + 1) i = false := by
        simp [waitLoop, hcl]
      refine iff_of_false (by simp [hL]) ?_
      rintro ⟨m, him, hm30, -, -⟩
      omega

/-- C7: with the default 15-minute timeout and 30-second interval (30 status
queries at most), `wait_for_deployment` returns true iff some query observes
the terminal state exactly `"Success"` before any other terminal state; any
other first terminal observation, or no terminal observation within the
timeout, yields false. -/
theorem wait_for_deployment_success_iff (poll : Nat → String) :
    wait_for_deployment poll 15 = true ↔
      ∃ i, i < 30 ∧ poll i = "Success" ∧
        ∀ j, j < i → isTerminalState (poll j) = false := by
  have he : wait_for_deployment poll 15 = waitLoop poll 900 900 0 := rfl
  rw [he, waitLoop_true_iff poll 900 0 (by omega)]
  constructor
  · rintro ⟨m, -, hm30, hmS, hall⟩
    exact ⟨m, hm30, hmS, fun j hj => hall j (Nat.zero_le j) hj⟩
  · rintro ⟨m, hm30, hmS, hall⟩
    exact ⟨m, Nat.zero_le m, hm30, hmS, fun j _ hj => hall j hj⟩

/-- The loop body skips secrets outside the namespace without touching the
report. -/
theorem processSecret_out (now : Int) (R : String → Except String RotationResult)
    (acc : BatchResults) (s : SecretMeta) (h : inNamespace s.name = false) :
    processSecret now R acc s = acc := by
  simp [processSecret, h]

/-- The loop body records a successful rotation in `rotated_secrets`. -/
theorem processSecret_ok (now : Int) (R : String → Except String RotationResult)
    (acc : BatchResults) (s : SecretMeta) (r : RotationResult)
    (h1 : inNamespace s.name = true) (h2 : should_rotate_secret now s = true)
    (h3 : R s.name = .ok r) :
    processSecret now R acc s =
      { acc with rotated_secrets := acc.rotated_secrets ++ [(s.name, r)] } := by
  simp [processSecret, h1, h2, h3]

/-- The loop body records a failed rotation in `failed_secrets`. -/
theorem processSecret_err (now : Int) (R : String → Except String RotationResult)
    (acc : BatchResults) (s : SecretMeta) (e : String)
    (h1 : inNamespace s.name = true) (h2 : should_rotate_secret now s = true)
    (h3 : R s.name = .error e) :
    processSecret now R acc s =
      { acc with failed_secrets := acc.failed_secrets ++ [(s.name, e)] } := by
  simp [processSecret, h1, h2, h3]

/-- The loop body records a not-due secret in `skipped_secrets`. -/
theorem processSecret_skip (now : Int) (R : String → Except String RotationResult)
    (acc : BatchResults) (s : SecretMeta)
    (h1 : inNamespace s.name = true) (h2 : should_rotate_secret now s = false) :
    processSecret now R acc s =
      { acc with skipped_secrets := acc.skipped_secrets ++ [s.name] } := by
  simp [processSecret, h1, h2]

/-- One loop step never removes a `failed_secrets` entry. -/
theorem processSecret_failed_mono (now : Int)
    (R : String → Except String RotationResult) (acc : BatchResults)
    (s : SecretMeta) (x : String × String) (h : x ∈ acc.failed_secrets) :
    x ∈ (processSecret now R acc s).failed_secrets := by
  unfold processSecret
  split
  · exact h
  · split
    · cases R s.name with
      | ok r => exact h
      | error e => simpa using Or.inl h
    · exact h

/-- One loop step never removes a `rotated_secrets` entry. -/
theorem processSecret_rotated_mono (now : Int)
    (R : String → Except String RotationResult) (acc : BatchResults)
    (s : SecretMeta) (x : String × RotationResult)
    (h : x ∈ acc.rotated_secrets) :
    x ∈ (processSecret now R acc s).rotated_secrets := by
  unfold processSecret
  split
  · exact h
  · split
    · cases R s.name with
      | ok r => simpa using Or.inl h
      | error e => exact h
    · exact h

/-- The whole loop never removes a `failed_secrets` entry. -/
theorem foldl_failed_mono (now : Int)
    (R : String → Except String RotationResult) (l : List SecretMeta) :
    ∀ (acc : BatchResults) (x : String × String), x ∈ acc.failed_secrets →
      x ∈ (l.foldl (processSecret now R) acc).failed_secrets := by
  induction l with
  | nil => intro acc x h; exact h
  | cons s t ih =>
    intro acc x h
    exact ih _ _ (processSecret_failed_mono now R acc s x h)

/-- The whole loop never removes a `rotated_secrets` entry. -/
theorem foldl_rotated_mono (now : Int)
    (R : String → Except String RotationResult) (l : List SecretMeta) :
    ∀ (acc : BatchResults) (x : String × RotationResult),
      x ∈ acc.rotated_secrets →
      x ∈ (l.foldl (processSecret now R) acc).rotated_secrets := by
  induction l with
  | nil => intro acc x h; exact h
  | cons s t ih =>
    intro acc x h
    exact ih _ _ (processSecret_rotated_mono now R acc s x h)

/-- C4: during batch rotation, a rotation error on an in-namespace due secret
is caught and recorded as a `(name, error)` entry in `failed_secrets`, and
every subsequent in-namespace due secret is still processed (a later
successful one still lands in `rotated_secrets`). -/
theorem rotate_scheduled_secrets_error_isolation (now : Int) (env : RotateEnv)
    (get : String → Except String SecretValue)
    (upd : String → SecretValue → Except String Unit)
    (pre post : List SecretMeta) (a b : SecretMeta) (e : String)
    (r : RotationResult)
    (ha1 : inNamespace a.name = true) (ha2 : should_rotate_secret now a = true)
    (ha3 : rotate_secret_by_type now env get upd a.name = .error e)
    (hb0 : b ∈ post) (hb1 : inNamespace b.name = true)
    (hb2 : should_rotate_secret now b = true)
    (hb3 : rotate_secret_by_type now env get upd b.name = .ok r) :
    (a.name, e) ∈
      (rotate_scheduled_secrets now env get upd (pre ++ a :: post)).failed_secrets ∧
    (b.name, r) ∈
      (rotate_scheduled_secrets now env get upd (pre ++ a :: post)).rotated_secrets := by
  have hfold : rotate_scheduled_secrets now env get upd (pre ++ a :: post)
      = post.foldl (processSecret now (rotate_secret_by_type now env get upd))
          (processSecret now (rotate_secret_by_type now env get upd)
            (pre.foldl (processSecret now (rotate_secret_by_type now env get upd))
              ⟨[], [], []⟩) a) := by
    simp [rotate_scheduled_secrets, List.foldl_append]
  constructor
  · rw [hfold]
    apply foldl_failed_mono
    rw [processSecret_err now _ _ a e ha1 ha2 ha3]
    simp
  · obtain ⟨p1, p2, rfl⟩ := List.append_of_mem hb0
    rw [hfold, show p1 ++ b :: p2 = (p1 ++ [b]) ++ p2 by simp,
      List.foldl_append]
    apply foldl_rotated_mono
    rw [List.foldl_append, List.foldl_cons, List.foldl_nil,
      processSecret_ok now _ _ b r hb1 hb2 hb3]
    simp

/-- C4 witness: a two-secret batch where the first (database) secret's store
update raises and the second (generic) succeeds. -/
theorem rotate_scheduled_secrets_error_isolation_witness :
    ("ecs-modernization/database-a", "update failed") ∈
      (rotate_scheduled_secrets 0 sampleEnv sampleGet sampleUpd
        [⟨"ecs-modernization/database-a", none⟩,
          ⟨"ecs-modernization/beta", none⟩]).failed_secrets ∧
    ("ecs-modernization/beta", ⟨"generic", "reviewed_only", 0⟩) ∈
      (rotate_scheduled_secrets 0 sampleEnv sampleGet sampleUpd
        [⟨"ecs-modernization/database-a", none⟩,
          ⟨"ecs-modernization/beta", none⟩]).rotated_secrets :=
  rotate_scheduled_secrets_error_isolation 0 sampleEnv sampleGet sampleUpd
    [] [⟨"ecs-modernization/beta", none⟩]
    ⟨"ecs-modernization/database-a", none⟩ ⟨"ecs-modernization/beta", none⟩
    "update failed" ⟨"generic", "reviewed_only", 0⟩
    (by decide) (by decide) (by rfl)
    (by simp) (by decide) (by decide) (by rfl)

/-- One loop step adds exactly one report entry for an in-namespace secret and
none for an out-of-namespace one. -/
theorem processSecret_size (now : Int) (R : String → Except String RotationResult)
    (acc : BatchResults) (s : SecretMeta) :
    reportSize (processSecret now R acc s)
      = reportSize acc + (if inNamespace s.name = true then 1 else 0) := by
  unfold processSecret
  by_cases h : inNamespace s.name = false
  · rw [if_pos h]
    simp [h, reportSize]
  · have h' : inNamespace s.name = true := by
      revert h
      cases inNamespace s.name <;> simp
    rw [if_neg h]
    split
    · cases hR : R s.name
      all_goals simp [reportSize, h']
      all_goals omega
    · simp [reportSize, h']
      omega

/-- The whole loop adds exactly one report entry per in-namespace secret. -/
theorem foldl_size (now : Int) (R : String → Except String RotationResult)
    (l : List SecretMeta) :
    ∀ acc : BatchResults,
      reportSize (l.foldl (processSecret now R) acc)
        = reportSize acc + (l.filter (fun s => inNamespace s.name)).length := by
  induction l with
  | nil => intro acc; simp
  | cons s t ih =>
    intro acc
    rw [List.foldl_cons, ih, processSecret_size, List.filter_cons]
    cases h : inNamespace s.name
    all_goals simp [h]
    all_goals omega

/-- One loop step never removes a name from the report. -/
theorem processSecret_names_mono (now : Int)
    (R : String → Except String RotationResult) (acc : BatchResults)
    (s : SecretMeta) (x : String) (h : x ∈ reportNames acc) :
    x ∈ reportNames (processSecret now R acc s) := by
  unfold processSecret
  split
  · exact h
  · split
    · cases R s.name
      all_goals simp [reportNames, List.mem_append] at h ⊢
      all_goals tauto
    · simp [reportNames, List.mem_append] at h ⊢
      tauto

/-- One loop step records the name of an in-namespace secret somewhere. -/
theorem processSecret_adds_name (now : Int)
    (R : String → Except String RotationResult) (acc : BatchResults)
    (s : SecretMeta) (h : inNamespace s.name = true) :
    s.name ∈ reportNames (processSecret now R acc s) := by
  unfold processSecret
  rw [if_neg (by simp [h])]
  split
  · cases R s.name
    all_goals simp [reportNames, List.mem_append]
  · simp [reportNames, List.mem_append]

/-- A name one loop step reports is an old name or the in-namespace secret's
own name. -/
theorem processSecret_names_sub (now : Int)
    (R : String → Except String RotationResult) (acc : BatchResults)
    (s : SecretMeta) (x : String)
    (h : x ∈ reportNames (processSecret now R acc s)) :
    x ∈ reportNames acc ∨ (inNamespace s.name = true ∧ x = s.name) := by
  unfold processSecret at h
  by_cases hns : inNamespace s.name = false
  · rw [if_pos hns] at h
    exact Or.inl h
  · have h' : inNamespace s.name = true := by
      revert hns
      cases inNamespace s.name <;> simp
    rw [if_neg hns] at h
    split at h
    · split at h
      all_goals simp [reportNames, List.mem_append, h'] at h ⊢
      all_goals tauto
    · simp [reportNames, List.mem_append, h'] at h ⊢
      tauto

/-- The whole loop never removes a name from the report. -/
theorem foldl_names_mono (now : Int)
    (R : String → Except String RotationResult) (l : List SecretMeta) :
    ∀ (acc : BatchResults) (x : String), x ∈ reportNames acc →
      x ∈ reportNames (l.foldl (processSecret now R) acc) := by
  induction l with
  | nil => intro acc x h; exact h
  | cons s t ih =>
    intro acc x h
    exact ih _ _ (processSecret_names_mono now R acc s x h)

/-- Every in-namespace enumerated secret ends up named in the report. -/
theorem foldl_covers (now : Int) (R : String → Except String RotationResult)
    (l : List SecretMeta) :
    ∀ (acc : BatchResults) (s : SecretMeta), s ∈ l →
      inNamespace s.name = true →
      s.name ∈ reportNames (l.foldl (processSecret now R) acc) := by
  induction l with
  | nil =>
    intro acc s h
    cases h
  | cons a t ih =>
    intro acc s hs hns
    rw [List.foldl_cons]
    rcases List.mem_cons.mp hs with rfl | hmem
    · exact foldl_names_mono now R t _ _ (processSecret_adds_name now R acc s hns)
    · exact ih _ s hmem hns

/-- Every name the loop reports comes from an in-namespace enumerated
secret (or was already in the accumulator). -/
theorem foldl_names_sub (now : Int)
    (R : String → Except String RotationResult) (l : List SecretMeta) :
    ∀ (acc : BatchResults) (x : String),
      x ∈ reportNames (l.foldl (processSecret now R) acc) →
      x ∈ reportNames acc ∨
        ∃ s, s ∈ l ∧ inNamespace s.name = true ∧ s.name = x := by
  induction l with
  | nil => intro acc x h; exact Or.inl h
  | cons a t ih =>
    intro acc x h
    rw [List.foldl_cons] at h
    rcases ih _ x h with h1 | ⟨s, hs, hns, rfl⟩
    · rcases processSecret_names_sub now R acc a x h1 with h2 | ⟨hns, rfl⟩
      · exact Or.inl h2
      · exact Or.inr ⟨a, List.mem_cons_self a t, hns, rfl⟩
    · exact Or.inr ⟨s, List.mem_cons_of_mem a hs, hns, rfl⟩

/-- C8: the batch report partitions the enumeration — it has exactly one entry
per enumerated in-namespace secret, every enumerated in-namespace secret's
name appears in it, and every name it mentions is that of an enumerated
in-namespace secret. -/
theorem rotate_scheduled_secrets_partition (now : Int) (env : RotateEnv)
    (get : String → Except String SecretValue)
    (upd : String → SecretValue → Except String Unit)
    (secrets : List SecretMeta) :
    reportSize (rotate_scheduled_secrets now env get upd secrets)
      = (secrets.filter (fun s => inNamespace s.name)).length ∧
    (∀ s, s ∈ secrets → inNamespace s.name = true →
      s.name ∈ reportNames (rotate_scheduled_secrets now env get upd secrets)) ∧
    (∀ x, x ∈ reportNames (rotate_scheduled_secrets now env get upd secrets) →
      ∃ s, s ∈ secrets ∧ inNamespace s.name = true ∧ s.name = x) := by
  refine ⟨?_, ?_, ?_⟩
  · rw [rotate_scheduled_secrets, foldl_size]
    simp [reportSize]
  · intro s hs hns
    exact foldl_covers now _ secrets _ s hs hns
  · intro x hx
    rcases foldl_names_sub now _ secrets _ x hx with h | h
    · simp [reportNames] at h
    · exact h

/-- C8 witness: the partition theorem applied to a two-secret enumeration with
one out-of-namespace name. -/
theorem rotate_scheduled_secrets_partition_witness :
    "ecs-modernization/alpha" ∈ reportNames (rotate_scheduled_secrets 0 sampleEnv
      sampleGet sampleUpd [⟨"other/x", none⟩, ⟨"ecs-modernization/alpha", none⟩]) :=
  (rotate_scheduled_secrets_partition 0 sampleEnv sampleGet sampleUpd
      [⟨"other/x", none⟩, ⟨"ecs-modernization/alpha", none⟩]).2.1
    ⟨"ecs-modernization/alpha", none⟩ (by simp) (by decide)

/-- C9: on a `SecretId` invocation whose rotation raises, the exception is
caught inside `rotate_specific_secret` and returned as a `'failed'` result
object; the handler still answers with status code 200, never 500, for this
per-secret failure. -/
theorem handler_specific_failure_isolated (now : Int) (kmsKey : String)
    (env : RotateEnv) (get : String → Except String SecretValue)
    (upd : String → SecretValue → Except String Unit)
    (secrets : List SecretMeta) (id e : String)
    (h : rotate_secret_by_type now env get upd id = .error e) :
    (handler now (some kmsKey) env get upd secrets (.secretId id)).statusCode
      = 200 ∧
    (handler now (some kmsKey) env get upd secrets (.secretId id)).specificBody
      = some ⟨id, none, some e, "failed"⟩ := by
  constructor
  · rfl
  · simp [handler, rotate_specific_secret, h]

/-- C9 witness: the handler run on the database secret whose update raises. -/
theorem handler_specific_failure_isolated_witness :
    (handler 0 (some "kms-key") sampleEnv sampleGet sampleUpd []
        (.secretId "ecs-modernization/database-a")).statusCode = 200 ∧
    (handler 0 (some "kms-key") sampleEnv sampleGet sampleUpd []
        (.secretId "ecs-modernization/database-a")).specificBody
      = some ⟨"ecs-modernization/database-a", none, some "update failed",
          "failed"⟩ :=
  handler_specific_failure_isolated 0 "kms-key" sampleEnv sampleGet sampleUpd
    [] "ecs-modernization/database-a" "update failed" (by rfl)

/-- C10: the namespace filter lives only on the enumeration path —
`rotate_specific_secret` rotates any identifier, also outside the
`ecs-modernization/` namespace, with no prefix check, while the batch loop
contributes nothing at all for an out-of-namespace secret. -/
theorem namespace_filter_only_batch :
    (∀ (now : Int) (env : RotateEnv)
      (get : String → Except String SecretValue)
      (upd : String → SecretValue → Except String Unit)
      (id : String) (r : RotationResult),
      inNamespace id = false →
      rotate_secret_by_type now env get upd id = .ok r →
      rotate_specific_secret now env get upd id = ⟨id, some r, none, "success"⟩) ∧
    (∀ (now : Int) (env : RotateEnv)
      (get : String → Except String SecretValue)
      (upd : String → SecretValue → Except String Unit)
      (id e : String),
      inNamespace id = false →
      rotate_secret_by_type now env get upd id = .error e →
      rotate_specific_secret now env get upd id = ⟨id, none, some e, "failed"⟩) ∧
    (∀ (now : Int) (env : RotateEnv)
      (get : String → Except String SecretValue)
      (upd : String → SecretValue → Except String Unit)
      (pre post : List SecretMeta) (s : SecretMeta),
      inNamespace s.name = false →
      rotate_scheduled_secrets now env get upd (pre ++ s :: post)
        = rotate_scheduled_secrets now env get upd (pre ++ post)) := by
  refine ⟨?_, ?_, ?_⟩
  · intro now env get upd id r _ hok
    simp [rotate_specific_secret, hok]
  · intro now env get upd id e _ herr
    simp [rotate_specific_secret, herr]
  · intro now env get upd pre post s h
    simp [rotate_scheduled_secrets, List.foldl_append, List.foldl_cons,
      processSecret_out now _ _ s h]

/-- C10 witness: a single out-of-namespace secret contributes nothing to the
batch report, yet the same name is rotated by the single-secret path. -/
theorem namespace_filter_only_batch_witness :
    rotate_scheduled_secrets 0 sampleEnv sampleGet sampleUpd [⟨"other/x", none⟩]
      = rotate_scheduled_secrets 0 sampleEnv sampleGet sampleUpd [] ∧
    rotate_specific_secret 0 sampleEnv sampleGet sampleUpd "other/x"
      = ⟨"other/x", some ⟨"generic", "reviewed_only", 0⟩, none, "success"⟩ := by
  constructor
  · exact namespace_filter_only_batch.2.2 0 sampleEnv sampleGet sampleUpd
      [] [] ⟨"other/x", none⟩ (by decide)
  · exact namespace_filter_only_batch.1 0 sampleEnv sampleGet sampleUpd
      "other/x" ⟨"generic", "reviewed_only", 0⟩ (by decide) (by rfl)
